import Mathlib

/-
  Verification of the content_monetization repository's feature-normalization
  logic: a shallow embedding of the helper functions and interaction handlers
  of src/yt_streamlit1.py and src/yt_streamlit.py, followed by theorems about
  the claims of the specification.

  Modelling conventions:
  * Python ints are Nat (all counters in the program are non-negative by
    construction: number_input floors at 0, API counts are non-negative).
  * Python float division on counters is exact division in ℚ.
  * A Python dict .get with a default becomes Option.getD.
  * Exceptions raised by the external API client are an explicit constructor
    of the environment type; a function that catches every exception and
    returns None becomes a total function into Option.
-/

namespace ContentMonetization

/-! ## Video identifier extraction (src/yt_streamlit1.py lines 29-33)

The source searches the url with the regular expression
  (?:v=|\/)([0-9A-Za-z_-]{11}).*
using re.search, which scans start positions left to right and, at each
position, tries the alternatives in order ("v=" first, then "/"); the group
is the 11 identifier characters right after the marker.  The trailing ".*"
always matches and does not affect the group. -/

/-- Character class [0-9A-Za-z_-] of the identifier regex. -/
def isIdChar (c : Char) : Bool :=
  c.isAlphanum || c == '-' || c == '_'

/-- Group capture after a marker has matched: succeeds exactly when at least
11 identifier-class characters follow, returning those 11 characters. -/
def checkId (l : List Char) : Option (List Char) :=
  if (l.take 11).length == 11 && (l.take 11).all isIdChar then
    some (l.take 11)
  else
    none

/-- One attempt of the regex at a fixed start position: the alternative "v="
is tried first, then "/", exactly as in the source pattern (?:v=|\/). -/
def idMatchAt : List Char → Option (List Char)
  | 'v' :: '=' :: rest => checkId rest
  | '/' :: rest => checkId rest
  | _ => none

/-- Leftmost search of re.search: try each start position from the left. -/
def findId : List Char → Option (List Char)
  | [] => none
  | c :: cs =>
    match idMatchAt (c :: cs) with
    | some r => some r
    | none => findId cs

/-- Embedding of extract_video_id (src/yt_streamlit1.py lines 29-33): the
captured group of the first match, or None when no match exists. -/
def extract_video_id (url : String) : Option String :=
  (findId url.data).map String.mk

/-! ## Duration normalization (src/yt_streamlit1.py lines 35-41) -/

/-- Numeric value of a non-empty list of decimal digits. -/
def digitsToNat (l : List Char) : Nat :=
  l.foldl (fun acc c => acc * 10 + (c.toNat - '0'.toNat)) 0

/-- Reads a maximal non-empty run of leading digits, returning its value and
the remainder, or nothing when the input does not start with a digit. -/
def readNum (l : List Char) : Option (Nat × List Char) :=
  let digits := l.takeWhile Char.isDigit
  if digits.isEmpty then none
  else some (digitsToNat digits, l.dropWhile Char.isDigit)

/-- Tries to read one duration component "number followed by the designator
d"; when the input does not start with such a component the input is left
untouched and no value is reported. -/
def tryComp (d : Char) (l : List Char) : Option Nat × List Char :=
  match readNum l with
  | some (n, c :: rest) => if c = d then (some n, rest) else (none, l)
  | _ => (none, l)

/-- Modelled from the spec: the source delegates ISO-8601 duration parsing to
the external isodate library, whose source is not part of this repository.
Following the specification (section 4.2, "an ISO-8601 duration string (e.g.,
PT5M30S)"), a duration string of the shape P[nY][nM][nW][nD][T[nH][nM][nS]]
with non-negative integer components and at least one component present is
converted to a total number of seconds (years and months at their nominal
365- and 30-day lengths); any other string is a parse failure. -/
def isoDurationSeconds (l : List Char) : Option Nat :=
  match l with
  | 'P' :: rest =>
    let (y, r1) := tryComp 'Y' rest
    let (mo, r2) := tryComp 'M' r1
    let (w, r3) := tryComp 'W' r2
    let (d, r4) := tryComp 'D' r3
    let dateSecs := y.getD 0 * 31536000 + mo.getD 0 * 2592000 +
      w.getD 0 * 604800 + d.getD 0 * 86400
    match r4 with
    | [] =>
      if y.isSome || mo.isSome || w.isSome || d.isSome then some dateSecs
      else none
    | 'T' :: tr =>
      let (h, t1) := tryComp 'H' tr
      let (mi, t2) := tryComp 'M' t1
      let (se, t3) := tryComp 'S' t2
      if t3.isEmpty && (h.isSome || mi.isSome || se.isSome) then
        some (dateSecs + h.getD 0 * 3600 + mi.getD 0 * 60 + se.getD 0)
      else none
    | _ => none
  | _ => none

/-- Embedding of parse_duration (src/yt_streamlit1.py lines 35-41): total
minutes of the parsed duration, and 0 on any parse failure. -/
def parse_duration (s : String) : ℚ :=
  match isoDurationSeconds s.data with
  | some n => (n : ℚ) / 60
  | none => 0

/-! ## Engagement rate (src/yt_streamlit1.py lines 43-48, src/yt_streamlit.py line 24) -/

/-- Shape of the statistics dict of the video API response: each counter may
be absent, and stats.get(key, 0) defaults it to 0. -/
structure YtStats where
  viewCount : Option Nat
  likeCount : Option Nat
  commentCount : Option Nat
deriving DecidableEq

/-- Embedding of calc_engagement_rate (src/yt_streamlit1.py lines 43-48). -/
def calc_engagement_rate (stats : YtStats) : ℚ :=
  let views := stats.viewCount.getD 0
  let likes := stats.likeCount.getD 0
  let comments := stats.commentCount.getD 0
  if 0 < views then ((likes : ℚ) + (comments : ℚ)) / (views : ℚ) else 0

/-- Embedding of the derived feature of src/yt_streamlit.py line 24:
engagement_rate = (likes + comments) / views if views > 0 else 0. -/
def engagement_rate (views likes comments : Nat) : ℚ :=
  if 0 < views then ((likes : ℚ) + (comments : ℚ)) / (views : ℚ) else 0

/-! ## Category translation (src/yt_streamlit1.py lines 170-183) -/

/-- Embedding of the category_map dict lookup with default, i.e.
category_map.get(cat_id, "Entertainment") over the literal table of
src/yt_streamlit1.py lines 170-183. -/
def category_map (c : String) : String :=
  if c = "1" then "Entertainment"
  else if c = "2" then "Tech"
  else if c = "10" then "Music"
  else if c = "20" then "Gaming"
  else if c = "22" then "Lifestyle"
  else if c = "23" then "Entertainment"
  else if c = "24" then "Entertainment"
  else if c = "27" then "Education"
  else if c = "28" then "Tech"
  else "Entertainment"

/-! ## The feature record (the 10-column row handed to model.predict) -/

/-- Canonical feature row: the exact 10 keys of the dicts built at
src/yt_streamlit1.py lines 87-98 and 134-145 and of the DataFrame columns of
src/yt_streamlit.py lines 27-31. -/
structure FeatureRecord where
  views : Nat
  likes : Nat
  comments : Nat
  watch_time_minutes : ℚ
  video_length_minutes : ℚ
  engagement_rate : ℚ
  subscribers : Nat
  category : String
  country : String
  device : String
deriving DecidableEq

/-- Embedding of the manual-path record assembly of src/yt_streamlit1.py
lines 133-145: every field of the DataFrame row, engagement_rate included, is
the value the operator typed into the form (lines 120-129; the numeric inputs
have min_value 0, hence Nat arguments and a non-negative rational for the
engagement-rate input). -/
def manual_form (views likes comments watch_time_minutes video_length_minutes
    subscribers : Nat) (engagement_rate : ℚ) (category country device : String) :
    FeatureRecord :=
  { views := views,
    likes := likes,
    comments := comments,
    watch_time_minutes := (watch_time_minutes : ℚ),
    video_length_minutes := (video_length_minutes : ℚ),
    engagement_rate := engagement_rate,
    subscribers := subscribers,
    category := category,
    country := country,
    device := device }

/-- Embedding of the record assembly of src/yt_streamlit.py lines 26-31,
whose engagement_rate is the derived feature of line 24 (the operator-facing
engagement-rate input is commented out there). -/
def manual_record_derived (views likes comments : Nat)
    (watch_time video_length : ℚ) (subscribers : Nat)
    (category device country : String) : FeatureRecord :=
  { views := views,
    likes := likes,
    comments := comments,
    watch_time_minutes := watch_time,
    video_length_minutes := video_length,
    engagement_rate := engagement_rate views likes comments,
    subscribers := subscribers,
    category := category,
    country := country,
    device := device }

/-! ## Remote statistics lookup (src/yt_streamlit1.py lines 50-102)

The two youtube.* request.execute() calls are external effects.  They are
embedded as an environment value: each response either raises (network
error, quota, schema surprise, unparseable numeric string — everything the
bare except at line 100 catches) or delivers a list of items that is empty
or holds one parsed item. -/

/-- Parsed fields of the single item of the videos().list response: the
statistics counters and the snippet/contentDetails fields the source reads.
Absent dict keys read through .get are Options; duration is read by direct
indexing, so a response that lacks it is modelled as a raising response. -/
structure VideoApiData where
  viewCount : Option Nat
  likeCount : Option Nat
  commentCount : Option Nat
  channelId : Option String
  categoryId : Option String
  duration : String
deriving DecidableEq

/-- Parsed fields of the single item of the channels().list response. -/
structure ChannelApiData where
  subscriberCount : Option Nat
  country : Option String
deriving DecidableEq

/-- Outcome of one request.execute() call: an exception, or a response whose
items list is empty (a), or holds one item (ok (some a)). -/
inductive ApiResult (α : Type) where
  | throws : ApiResult α
  | ok : Option α → ApiResult α

/-- Environment of one fetch: the video response and, for each channel id,
the channel response. -/
structure ApiEnv where
  videoResponse : ApiResult VideoApiData
  channelResponse : String → ApiResult ChannelApiData

/-- Record built at src/yt_streamlit1.py lines 87-98 from the video item and
the already-resolved subscribers/country values. -/
def buildData (video : VideoApiData) (subscribers : Nat) (country : String) :
    FeatureRecord :=
  { views := video.viewCount.getD 0,
    likes := video.likeCount.getD 0,
    comments := video.commentCount.getD 0,
    watch_time_minutes := ((video.viewCount.getD 0 * 5 : Nat) : ℚ),
    video_length_minutes := parse_duration video.duration,
    engagement_rate := calc_engagement_rate
      { viewCount := video.viewCount,
        likeCount := video.likeCount,
        commentCount := video.commentCount },
    subscribers := subscribers,
    category := video.categoryId.getD "22",
    country := country,
    device := "Mobile" }

/-- Embedding of get_video_stats (src/yt_streamlit1.py lines 50-102): None
when the video request raises or returns no items; subscribers/country keep
their defaults 0/"US" when there is no channel id or the channel response has
no items; an exception anywhere (channel request included) is caught by the
enclosing try and yields None. -/
def get_video_stats (env : ApiEnv) (video_id : String) : Option FeatureRecord :=
  match env.videoResponse with
  | ApiResult.throws => none
  | ApiResult.ok none => none
  | ApiResult.ok (some video) =>
    match video.channelId with
    | none => some (buildData video 0 "US")
    | some cid =>
      match env.channelResponse cid with
      | ApiResult.throws => none
      | ApiResult.ok none => some (buildData video 0 "US")
      | ApiResult.ok (some ch) =>
        some (buildData video (ch.subscriberCount.getD 0) (ch.country.getD "US"))

/-! ## Link-mode interaction handlers (src/yt_streamlit1.py lines 150-228) -/

/-- Session state of the link mode: the single stored video_stats record
(st.session_state["video_stats"]), absent until a fetch succeeds. -/
structure SessionState where
  video_stats : Option FeatureRecord
deriving DecidableEq

/-- Category translation applied on fetch success (src/yt_streamlit1.py
lines 182-183): stats["category"] is replaced by the table lookup. -/
def applyCategory (stats : FeatureRecord) : FeatureRecord :=
  { stats with category := category_map stats.category }

/-- Embedding of the submit_link handler (src/yt_streamlit1.py lines
160-188).  Returns the new session state and whether an error message was
surfaced: invalid URL and failed lookup both leave the state unchanged and
surface an error; a successful lookup stores the category-mapped record. -/
def handle_submit_link (env : ApiEnv) (st : SessionState) (url : String) :
    SessionState × Bool :=
  match extract_video_id url with
  | none => (st, true)
  | some vid =>
    match get_video_stats env vid with
    | none => (st, true)
    | some stats => ({ video_stats := some (applyCategory stats) }, false)

/-- Embedding of the customize-and-predict step (src/yt_streamlit1.py lines
191-228): when a record is stored, the operator's country/category/device
selections are written into it and the Predict Revenue button runs the
predictor on it.  Returns the new session state and whether a prediction was
produced.  The stored record is not removed. -/
def handle_predict (st : SessionState) (country category device : String) :
    SessionState × Bool :=
  match st.video_stats with
  | none => (st, false)
  | some stats =>
    ({ video_stats := some
        { stats with country := country, category := category, device := device } },
      true)

/-! ## Helper lemmas -/

theorem checkId_eq_some {l r : List Char} (h : checkId l = some r) :
    r.length = 11 ∧ r.all isIdChar = true ∧ ∃ q, l = r ++ q := by
  unfold checkId at h
  split at h
  · next hg =>
      cases h
      rw [Bool.and_eq_true] at hg
      refine ⟨by simpa using hg.1, hg.2, l.drop 11, (List.take_append_drop 11 l).symm⟩
  · exact absurd h (by simp)

theorem idMatchAt_eq_some {l r : List Char} (h : idMatchAt l = some r) :
    r.length = 11 ∧ r.all isIdChar = true ∧
    ∃ p q, l = p ++ r ++ q ∧ (p = ['v', '='] ∨ p = ['/']) := by
  rw [idMatchAt.eq_def] at h
  split at h
  · obtain ⟨hlen, hall, q, hq⟩ := checkId_eq_some h
    exact ⟨hlen, hall, ['v', '='], q, by simp [hq], Or.inl rfl⟩
  · obtain ⟨hlen, hall, q, hq⟩ := checkId_eq_some h
    exact ⟨hlen, hall, ['/'], q, by simp [hq], Or.inr rfl⟩
  · exact absurd h (by simp)

theorem findId_eq_some {l r : List Char} (h : findId l = some r) :
    r.length = 11 ∧ r.all isIdChar = true ∧
    ∃ p m q, l = p ++ m ++ r ++ q ∧ (m = ['v', '='] ∨ m = ['/']) := by
  induction l with
  | nil => simp [findId] at h
  | cons c cs ih =>
    rw [findId] at h
    cases hm : idMatchAt (c :: cs) with
    | some r0 =>
      rw [hm] at h
      cases h
      obtain ⟨hlen, hall, p, q, hq, hp⟩ := idMatchAt_eq_some hm
      exact ⟨hlen, hall, [], p, q, by simpa using hq, hp⟩
    | none =>
      rw [hm] at h
      obtain ⟨hlen, hall, p, m, q, hq, hp⟩ := ih h
      exact ⟨hlen, hall, c :: p, m, q, by simp [hq], hp⟩

theorem idMatchAt_marker {m idc r : List Char} (hm : m = ['v', '='] ∨ m = ['/'])
    (hlen : idc.length = 11) (hall : idc.all isIdChar = true) :
    idMatchAt (m ++ (idc ++ r)) = some idc := by
  have htake : (idc ++ r).take 11 = idc := List.take_left' hlen
  have hck : checkId (idc ++ r) = some idc := by
    unfold checkId
    rw [htake]
    simp [hlen, hall]
  cases hm with
  | inl h => subst h; exact hck
  | inr h => subst h; exact hck

theorem findId_leftmost : ∀ (p rest r : List Char),
    idMatchAt rest = some r →
    (∀ n, n < p.length → idMatchAt ((p ++ rest).drop n) = none) →
    findId (p ++ rest) = some r := by
  intro p
  induction p with
  | nil =>
    intro rest r hr _
    match rest with
    | [] => simp [idMatchAt] at hr
    | c :: cs => rw [List.nil_append, findId, hr]
  | cons c p' ih =>
    intro rest r hr hp
    have h0 : idMatchAt (c :: (p' ++ rest)) = none := by
      have := hp 0 (by simp)
      simpa using this
    rw [List.cons_append, findId, h0]
    exact ih rest r hr (fun n hn => by
      have := hp (n + 1) (by simpa using Nat.succ_lt_succ hn)
      simpa using this)

/-! ## Claim theorems -/

/-- C1: the engagement-rate calculator, given view/like/comment counters,
returns (likes + comments) / views whenever views > 0, and exactly 0 whenever
views = 0, for all non-negative integer likes and comments; this holds for
calc_engagement_rate of src/yt_streamlit1.py and for the derived feature of
src/yt_streamlit.py line 24 alike. -/
theorem C1_engagement_rate (views likes comments : Nat) :
    (0 < views →
      calc_engagement_rate ⟨some views, some likes, some comments⟩ =
        ((likes : ℚ) + (comments : ℚ)) / (views : ℚ) ∧
      engagement_rate views likes comments =
        ((likes : ℚ) + (comments : ℚ)) / (views : ℚ)) ∧
    (views = 0 →
      calc_engagement_rate ⟨some views, some likes, some comments⟩ = 0 ∧
      engagement_rate views likes comments = 0) := by
  constructor
  · intro h
    constructor <;> simp [calc_engagement_rate, engagement_rate, h]
  · intro h
    subst h
    constructor <;> simp [calc_engagement_rate, engagement_rate]

/-- C1 witness: views=4, likes=10, comments=5 yields 15/4, and the scenario
views=0, likes=10, comments=5 yields exactly 0 with no division fault. -/
theorem C1_engagement_rate_witness :
    calc_engagement_rate ⟨some 4, some 10, some 5⟩ = 15 / 4 ∧
    engagement_rate 4 10 5 = 15 / 4 ∧
    calc_engagement_rate ⟨some 0, some 10, some 5⟩ = 0 ∧
    engagement_rate 0 10 5 = 0 := by
  have h1 := (C1_engagement_rate 4 10 5).1 (by norm_num)
  have h2 := (C1_engagement_rate 0 10 5).2 rfl
  refine ⟨?_, ?_, h2.1, h2.2⟩
  · rw [h1.1]; norm_num
  · rw [h1.2]; norm_num

/-- C2 counterexample: in the manual path of src/yt_streamlit1.py the
operator enters views=1, likes=0, comments=0 and engagement_rate=7; the
record handed to the predictor carries engagement_rate 7, while recomputing
from the submitted counters gives 0 — the field is an independently
operator-edited value, not recomputed. -/
theorem C2_counterexample :
    (manual_form 1 0 0 0 0 0 7 "Education" "IN" "Mobile").engagement_rate = 7 ∧
    calc_engagement_rate ⟨some 1, some 0, some 0⟩ = 0 ∧ (7 : ℚ) ≠ 0 := by
  refine ⟨rfl, ?_, by norm_num⟩
  norm_num [calc_engagement_rate]

/-- C2 amended: in src/yt_streamlit1.py's manual path the engagement_rate
field of the FeatureRecord handed to the predictor is exactly the
operator-entered engagement-rate input, passed through unchanged; only the
manual path of src/yt_streamlit.py recomputes it as
(likes + comments) / views (0 when views = 0) from the submitted counters. -/
theorem C2_engagement_passthrough
    (views likes comments wt vl subs : Nat) (er : ℚ) (cat ctry dev : String)
    (watch video_length : ℚ) :
    (manual_form views likes comments wt vl subs er cat ctry dev).engagement_rate = er ∧
    (manual_record_derived views likes comments watch video_length subs cat dev
        ctry).engagement_rate = engagement_rate views likes comments :=
  ⟨rfl, rfl⟩

/-- C3 counterexample: the input "/aaaaaaaaaaav=bbbbbbbbbbb" contains the
valid 11-character identifier "bbbbbbbbbbb" following "v=", yet extraction
returns "aaaaaaaaaaa" (the leftmost candidate, after "/") — so extraction
does not return every contained valid identifier, only the leftmost one. -/
theorem C3_counterexample :
    "/aaaaaaaaaaav=bbbbbbbbbbb".data =
      "/aaaaaaaaaaa".data ++ ['v', '='] ++ "bbbbbbbbbbb".data ++ [] ∧
    "bbbbbbbbbbb".data.length = 11 ∧ "bbbbbbbbbbb".data.all isIdChar = true ∧
    extract_video_id "/aaaaaaaaaaav=bbbbbbbbbbb" = some "aaaaaaaaaaa" ∧
    ("aaaaaaaaaaa" : String) ≠ "bbbbbbbbbbb" := by
  refine ⟨by decide, by decide, by decide, by decide, by decide⟩

/-- C3 amended: for every URL string containing a valid 11-character
identifier following "v=" or a path separator, extraction returns exactly the
leftmost such identifier (first conjunct: whenever no position inside the
prefix matches, the identifier at the marker is returned); on any string with
no matching pattern it returns none, never a fabricated id (second conjunct);
absence of exceptions is inherent: extract_video_id is a total function into
Option; the scenario of the claim holds (third conjunct). -/
theorem C3_extract_leftmost (s : String) (p m idc r : List Char) :
    (s.data = p ++ m ++ idc ++ r →
      (m = ['v', '='] ∨ m = ['/']) →
      idc.length = 11 → idc.all isIdChar = true →
      (∀ n, n < p.length → idMatchAt (s.data.drop n) = none) →
      extract_video_id s = some (String.mk idc)) ∧
    ((∀ p2 m2 idc2 r2, s.data = p2 ++ m2 ++ idc2 ++ r2 →
        (m2 = ['v', '='] ∨ m2 = ['/']) → idc2.length = 11 →
        idc2.all isIdChar = true → False) →
      extract_video_id s = none) ∧
    extract_video_id "https://www.youtube.com/watch?v=dQw4w9WgXcQ" = some "dQw4w9WgXcQ" := by
  refine ⟨?_, ?_, by decide⟩
  · intro hs hm hlen hall hp
    unfold extract_video_id
    rw [List.append_assoc, List.append_assoc] at hs
    rw [hs] at hp ⊢
    rw [findId_leftmost p (m ++ (idc ++ r)) idc (idMatchAt_marker hm hlen hall) hp]
    rfl
  · intro hno
    unfold extract_video_id
    cases hf : findId s.data with
    | none => rfl
    | some rr =>
      obtain ⟨hlen, hall, p2, m2, q2, hq, hp⟩ := findId_eq_some hf
      exact absurd (hno p2 m2 rr q2 hq hp hlen hall) not_false

/-- C3 witness: the scenario URL decomposes with no match before the "v="
marker, and extraction returns exactly "dQw4w9WgXcQ". -/
theorem C3_extract_leftmost_witness :
    "https://www.youtube.com/watch?v=dQw4w9WgXcQ".data =
      "https://www.youtube.com/watch?".data ++ ['v', '='] ++ "dQw4w9WgXcQ".data ++ [] ∧
    extract_video_id "https://www.youtube.com/watch?v=dQw4w9WgXcQ" =
      some (String.mk "dQw4w9WgXcQ".data) :=
  ⟨by decide,
   (C3_extract_leftmost "https://www.youtube.com/watch?v=dQw4w9WgXcQ"
      "https://www.youtube.com/watch?".data ['v', '='] "dQw4w9WgXcQ".data []).1
     (by decide) (Or.inl rfl) (by decide) (by decide) (by decide)⟩

/-- C4: for every input string, duration normalization returns a defined
non-negative number of total minutes, returning 0 on any parse failure, and
"PT5M30S" yields 5.5 minutes.  (Here spec-modelled: the ISO-8601 parse itself
is the isoDurationSeconds model of the external isodate call.) -/
theorem C4_parse_duration_total (s : String) :
    0 ≤ parse_duration s ∧
    (isoDurationSeconds s.data = none → parse_duration s = 0) ∧
    parse_duration "PT5M30S" = 11 / 2 := by
  refine ⟨?_, ?_, ?_⟩
  · unfold parse_duration
    cases h : isoDurationSeconds s.data with
    | none => simp
    | some n =>
      show (0 : ℚ) ≤ (n : ℚ) / 60
      positivity
  · intro h
    unfold parse_duration
    rw [h]
  · have h : isoDurationSeconds "PT5M30S".data = some 330 := by decide
    unfold parse_duration
    rw [h]
    norm_num

/-- C4 witness: the garbage string "garbage" normalizes to 0, and the
scenario "PT5M30S" yields 11/2 = 5.5 minutes. -/
theorem C4_parse_duration_total_witness :
    parse_duration "garbage" = 0 ∧ parse_duration "PT5M30S" = 11 / 2 :=
  ⟨(C4_parse_duration_total "garbage").2.1 (by decide),
   (C4_parse_duration_total "PT5M30S").2.2⟩

/-- C5: category translation is total into the six-category vocabulary;
known codes map per the fixed table ("10" to Music, "20" to Gaming, "27" to
Education), every unrecognized code maps to Entertainment, and the scenario
codes "20" and "99" map to "Gaming" and "Entertainment". -/
theorem C5_category_map_total (s : String) :
    category_map s ∈ ["Gaming", "Education", "Tech", "Entertainment", "Lifestyle", "Music"] ∧
    category_map "10" = "Music" ∧ category_map "20" = "Gaming" ∧
    category_map "27" = "Education" ∧ category_map "99" = "Entertainment" ∧
    (s ∉ ["1", "2", "10", "20", "22", "23", "24", "27", "28"] →
      category_map s = "Entertainment") := by
  refine ⟨?_, by decide, by decide, by decide, by decide, ?_⟩
  · unfold category_map
    split_ifs <;> simp
  · intro h
    simp only [List.mem_cons, List.not_mem_nil, or_false, not_or] at h
    obtain ⟨n1, n2, n3, n4, n5, n6, n7, n8, n9⟩ := h
    simp [category_map, n1, n2, n3, n4, n5, n6, n7, n8, n9]

/-- C5 witness: "99" is not a known code and maps to the default. -/
theorem C5_category_map_total_witness :
    ("99" : String) ∉ ["1", "2", "10", "20", "22", "23", "24", "27", "28"] ∧
    category_map "99" = "Entertainment" :=
  ⟨by decide, (C5_category_map_total "99").2.2.2.2.2 (by decide)⟩

/-- Environment of an always-failing transport, for the C6 witness. -/
def envThrows : ApiEnv :=
  { videoResponse := ApiResult.throws, channelResponse := fun _ => ApiResult.throws }

/-- C6: on any transport or data-absence failure — the video request raises
(network error, quota), the video is not found (empty items), or the channel
request raises — the lookup returns the explicit no-data outcome none (it
never raises: the embedding is a total function, mirroring the enclosing
try/except); and on a none result the submit_link handler surfaces an error
and leaves the session state unchanged, retaining no partial state. -/
theorem C6_lookup_failure (env : ApiEnv) (st : SessionState) (url vid : String) :
    (env.videoResponse = ApiResult.throws → get_video_stats env vid = none) ∧
    (env.videoResponse = ApiResult.ok none → get_video_stats env vid = none) ∧
    (∀ video cid, env.videoResponse = ApiResult.ok (some video) →
      video.channelId = some cid → env.channelResponse cid = ApiResult.throws →
      get_video_stats env vid = none) ∧
    (extract_video_id url = some vid → get_video_stats env vid = none →
      handle_submit_link env st url = (st, true)) := by
  refine ⟨?_, ?_, ?_, ?_⟩
  · intro h; simp [get_video_stats, h]
  · intro h; simp [get_video_stats, h]
  · intro video cid h1 h2 h3
    simp [get_video_stats, h1, h2, h3]
  · intro h1 h2
    simp [handle_submit_link, h1, h2]

/-- C6 witness: with a raising transport the lookup yields none, and the
handler leaves the empty session state unchanged while surfacing an error. -/
theorem C6_lookup_failure_witness :
    get_video_stats envThrows "dQw4w9WgXcQ" = none ∧
    handle_submit_link envThrows { video_stats := none }
      "https://www.youtube.com/watch?v=dQw4w9WgXcQ" = ({ video_stats := none }, true) := by
  have h1 : get_video_stats envThrows "dQw4w9WgXcQ" = none :=
    (C6_lookup_failure envThrows { video_stats := none }
      "https://www.youtube.com/watch?v=dQw4w9WgXcQ" "dQw4w9WgXcQ").1 rfl
  exact ⟨h1, (C6_lookup_failure envThrows { video_stats := none }
      "https://www.youtube.com/watch?v=dQw4w9WgXcQ" "dQw4w9WgXcQ").2.2.2 (by decide) h1⟩

/-- Video item whose snippet carries categoryId "10", for the C7
counterexample. -/
def videoC7 : VideoApiData :=
  { viewCount := some 100, likeCount := some 10, commentCount := some 5,
    channelId := some "UCchannel", categoryId := some "10", duration := "PT5M30S" }

/-- Environment whose channel response has no items (incomplete channel
data), for the C7 counterexample. -/
def envC7 : ApiEnv :=
  { videoResponse := ApiResult.ok (some videoC7),
    channelResponse := fun _ => ApiResult.ok none }

/-- C7 counterexample: with incomplete channel data (channel response has no
items) the fetched record's country does default to "US", but its category is
the video snippet's "10", not the claimed default "22" — the "22" default is
governed by the video snippet's categoryId, not by channel completeness. -/
theorem C7_counterexample :
    envC7.channelResponse "UCchannel" = ApiResult.ok none ∧
    (get_video_stats envC7 "vid").map FeatureRecord.category = some "10" ∧
    (get_video_stats envC7 "vid").map FeatureRecord.country = some "US" ∧
    ("10" : String) ≠ "22" := by
  refine ⟨rfl, rfl, rfl, by decide⟩

/-- C7 amended: every successful lookup produces a record whose
watch_time_minutes equals views times 5; the category defaults to "22" when
the video snippet lacks a categoryId; the country defaults to "US" and the
subscriber count to 0 when channel data is incomplete (no channel id on the
video, or a channel response with no items). -/
theorem C7_fetched_record (env : ApiEnv) (vid : String) (rec : FeatureRecord)
    (video : VideoApiData) (hv : env.videoResponse = ApiResult.ok (some video))
    (h : get_video_stats env vid = some rec) :
    rec.watch_time_minutes = (rec.views : ℚ) * 5 ∧
    (video.categoryId = none → rec.category = "22") ∧
    (video.channelId = none → rec.country = "US" ∧ rec.subscribers = 0) ∧
    (∀ cid, video.channelId = some cid → env.channelResponse cid = ApiResult.ok none →
      rec.country = "US" ∧ rec.subscribers = 0) := by
  cases hc : video.channelId with
  | none =>
    simp only [get_video_stats, hv, hc, Option.some_inj] at h
    subst h
    refine ⟨by simp [buildData], fun hcat => by simp [buildData, hcat],
      fun _ => by simp [buildData], ?_⟩
    intro cid hcid
    simp at hcid
  | some cid =>
    cases hch : env.channelResponse cid with
    | throws => simp [get_video_stats, hv, hc, hch] at h
    | ok och =>
      cases och with
      | none =>
        simp only [get_video_stats, hv, hc, hch, Option.some_inj] at h
        subst h
        refine ⟨by simp [buildData], fun hcat => by simp [buildData, hcat],
          fun hn => by simp at hn, ?_⟩
        intro cid2 hcid2 hch2
        exact ⟨by simp [buildData], by simp [buildData]⟩
      | some ch =>
        simp only [get_video_stats, hv, hc, hch, Option.some_inj] at h
        subst h
        refine ⟨by simp [buildData], fun hcat => by simp [buildData, hcat],
          fun hn => by simp at hn, ?_⟩
        intro cid2 hcid2 hch2
        injection hcid2 with he
        subst he
        rw [hch] at hch2
        simp at hch2

/-- Video item with no channel id and no categoryId, for the C7 witness. -/
def videoC7w : VideoApiData :=
  { viewCount := some 7, likeCount := some 1, commentCount := some 2,
    channelId := none, categoryId := none, duration := "PT1M" }

/-- Environment for the C7 witness. -/
def envC7w : ApiEnv :=
  { videoResponse := ApiResult.ok (some videoC7w),
    channelResponse := fun _ => ApiResult.throws }

/-- C7 witness: a video with 7 views, no categoryId and no channel id yields
category "22", country "US" and watch time 35 minutes. -/
theorem C7_fetched_record_witness :
    (get_video_stats envC7w "x").map FeatureRecord.category = some "22" ∧
    (get_video_stats envC7w "x").map FeatureRecord.country = some "US" ∧
    (get_video_stats envC7w "x").map FeatureRecord.watch_time_minutes = some 35 := by
  have hg : get_video_stats envC7w "x" = some (buildData videoC7w 0 "US") := rfl
  have h := C7_fetched_record envC7w "x" (buildData videoC7w 0 "US") videoC7w rfl hg
  refine ⟨?_, ?_, ?_⟩
  · rw [hg, Option.map_some']
    exact congrArg some (h.2.1 rfl)
  · rw [hg, Option.map_some']
    exact congrArg some (h.2.2.1 rfl).1
  · rw [hg, Option.map_some']
    refine congrArg some ?_
    rw [h.1]
    norm_num [buildData, videoC7w]

/-- Video item for the C8 trace. -/
def videoC8 : VideoApiData :=
  { viewCount := some 100, likeCount := some 10, commentCount := some 5,
    channelId := none, categoryId := some "20", duration := "PT5M30S" }

/-- Environment for the C8 trace. -/
def envC8 : ApiEnv :=
  { videoResponse := ApiResult.ok (some videoC8),
    channelResponse := fun _ => ApiResult.throws }

/-- C8 counterexample: a concrete trace — successful fetch, then a completed
fetch-path prediction — after which the stored record is still retained in
session state (video_stats is still some), refuting "after a fetch-path
prediction completes, the stored record is no longer retained". -/
theorem C8_counterexample :
    (handle_submit_link envC8 { video_stats := none }
      "https://www.youtube.com/watch?v=dQw4w9WgXcQ").2 = false ∧
    (handle_predict (handle_submit_link envC8 { video_stats := none }
        "https://www.youtube.com/watch?v=dQw4w9WgXcQ").1 "US" "Gaming" "Mobile").2 = true ∧
    (handle_predict (handle_submit_link envC8 { video_stats := none }
        "https://www.youtube.com/watch?v=dQw4w9WgXcQ").1
        "US" "Gaming" "Mobile").1.video_stats.isSome = true := by
  refine ⟨rfl, rfl, rfl⟩

/-- C8 amended: the fetched record is held in session state and survives the
prediction call unchanged in presence (prediction neither discards nor
creates a stored record); it is replaced only when a new fetch succeeds,
which overwrites the slot with the newly fetched, category-mapped record
(session end is outside the program). -/
theorem C8_session_retention (st : SessionState) (c cat d : String)
    (env : ApiEnv) (url vid : String) (stats : FeatureRecord) :
    (handle_predict st c cat d).1.video_stats.isSome = st.video_stats.isSome ∧
    (extract_video_id url = some vid → get_video_stats env vid = some stats →
      (handle_submit_link env st url).1.video_stats = some (applyCategory stats)) := by
  constructor
  · rcases hv : st.video_stats with _ | s <;> simp [handle_predict, hv]
  · intro h1 h2
    simp [handle_submit_link, h1, h2]

/-- C8 witness: the successful fetch of the C8 trace stores the
category-mapped fetched record. -/
theorem C8_session_retention_witness :
    (handle_submit_link envC8 { video_stats := none }
      "https://www.youtube.com/watch?v=dQw4w9WgXcQ").1.video_stats =
      some (applyCategory (buildData videoC8 0 "US")) :=
  (C8_session_retention { video_stats := none } "US" "Gaming" "Mobile" envC8
    "https://www.youtube.com/watch?v=dQw4w9WgXcQ" "dQw4w9WgXcQ"
    (buildData videoC8 0 "US")).2 (by decide) rfl

/-- Helper for C9: the record built from a video item satisfies the derived
engagement-rate invariant with respect to its own counter fields. -/
theorem buildData_engagement (video : VideoApiData) (subs : Nat) (ctry : String) :
    (0 < (buildData video subs ctry).views →
      (buildData video subs ctry).engagement_rate =
        (((buildData video subs ctry).likes : ℚ) + ((buildData video subs ctry).comments : ℚ)) /
          ((buildData video subs ctry).views : ℚ)) ∧
    ((buildData video subs ctry).views = 0 →
      (buildData video subs ctry).engagement_rate = 0) := by
  constructor
  · intro h
    simp only [buildData] at h ⊢
    simp [calc_engagement_rate, h]
  · intro h
    simp only [buildData] at h ⊢
    simp [calc_engagement_rate, h]

/-- C9: every non-none record returned by the remote statistics lookup
satisfies the derived-field invariant internally: its engagement_rate equals
(likes + comments) / views computed from the counters stored in that same
record when views > 0, and equals 0 when views = 0. -/
theorem C9_engagement_invariant (env : ApiEnv) (vid : String) (rec : FeatureRecord)
    (h : get_video_stats env vid = some rec) :
    (0 < rec.views →
      rec.engagement_rate = ((rec.likes : ℚ) + (rec.comments : ℚ)) / (rec.views : ℚ)) ∧
    (rec.views = 0 → rec.engagement_rate = 0) := by
  cases hv : env.videoResponse with
  | throws => simp [get_video_stats, hv] at h
  | ok ov =>
    cases ov with
    | none => simp [get_video_stats, hv] at h
    | some video =>
      cases hc : video.channelId with
      | none =>
        simp only [get_video_stats, hv, hc, Option.some_inj] at h
        subst h
        exact buildData_engagement video 0 "US"
      | some cid =>
        cases hch : env.channelResponse cid with
        | throws => simp [get_video_stats, hv, hc, hch] at h
        | ok och =>
          cases och with
          | none =>
            simp only [get_video_stats, hv, hc, hch, Option.some_inj] at h
            subst h
            exact buildData_engagement video 0 "US"
          | some ch =>
            simp only [get_video_stats, hv, hc, hch, Option.some_inj] at h
            subst h
            exact buildData_engagement video (ch.subscriberCount.getD 0) (ch.country.getD "US")

/-- Video item with 4 views, 6 likes, 2 comments, for the C9 witness. -/
def videoC9 : VideoApiData :=
  { viewCount := some 4, likeCount := some 6, commentCount := some 2,
    channelId := none, categoryId := some "24", duration := "PT2M" }

/-- Environment for the C9 witness. -/
def envC9 : ApiEnv :=
  { videoResponse := ApiResult.ok (some videoC9),
    channelResponse := fun _ => ApiResult.throws }

/-- C9 witness: the fetched record with views 4, likes 6, comments 2 carries
engagement_rate (6 + 2) / 4 = 2. -/
theorem C9_engagement_invariant_witness :
    (get_video_stats envC9 "x").map FeatureRecord.engagement_rate = some 2 := by
  have hg : get_video_stats envC9 "x" = some (buildData videoC9 0 "US") := rfl
  have h := (C9_engagement_invariant envC9 "x" (buildData videoC9 0 "US") hg).1 (by decide)
  rw [hg, Option.map_some']
  refine congrArg some ?_
  rw [h]
  norm_num [buildData, videoC9]

/-- C10: for every input string, identifier extraction returns either none
or a string of exactly 11 characters, each drawn from the identifier class,
occurring contiguously in the input. -/
theorem C10_extract_shape (url id : String) (h : extract_video_id url = some id) :
    id.length = 11 ∧ id.data.all isIdChar = true ∧
    ∃ p q, url.data = p ++ id.data ++ q := by
  unfold extract_video_id at h
  cases hf : findId url.data with
  | none => rw [hf] at h; cases h
  | some rr =>
    rw [hf] at h
    simp only [Option.map_some', Option.some_inj] at h
    subst h
    obtain ⟨hlen, hall, p, m, q, hq, -⟩ := findId_eq_some hf
    refine ⟨hlen, hall, p ++ m, q, ?_⟩
    rw [hq]

/-- C10 witness: the scenario URL extracts an identifier of length 11. -/
theorem C10_extract_shape_witness :
    extract_video_id "https://www.youtube.com/watch?v=dQw4w9WgXcQ" = some "dQw4w9WgXcQ" ∧
    ("dQw4w9WgXcQ" : String).length = 11 := by
  have h : extract_video_id "https://www.youtube.com/watch?v=dQw4w9WgXcQ" =
      some "dQw4w9WgXcQ" := by decide
  exact ⟨h, (C10_extract_shape "https://www.youtube.com/watch?v=dQw4w9WgXcQ" "dQw4w9WgXcQ" h).1⟩

end ContentMonetization
